import Mathlib

/-!
Shallow embedding of the RLE assessment initialization scripts
(`scripts/init_repo.py` and `scripts/upload_demo_asset.py`).

External processes are modelled by an environment `Env` mapping a command
line (list of arguments) to the process result (exit code, stdout, stderr).
Phase functions are embedded as computations in a trace monad `TraceM`
that records every external interaction (step executions, direct process
calls, sleeps, skip headers) and aborts with an exit code on fatal
failure, mirroring the propagation of `typer.Exit` in the Python code.
-/

/-- Structural test that the character list `p` is a prefix of `s`
(models the start of Python substring search). -/
def listStartsWith : List Char → List Char → Bool
  | [], _ => true
  | _ :: _, [] => false
  | p :: ps, c :: cs => p = c && listStartsWith ps cs

/-- Structural test that `p` occurs as a contiguous sublist of `s`. -/
def listHasSub (p : List Char) : List Char → Bool
  | [] => listStartsWith p []
  | c :: cs => listStartsWith p (c :: cs) || listHasSub p cs

/-- Model of the Python expression `pat in s` for strings. -/
def strContains (s pat : String) : Bool :=
  listHasSub pat.data s.data

/-- Drop leading whitespace characters from a character list. -/
def dropLeadingWs : List Char → List Char
  | [] => []
  | c :: cs => if c.isWhitespace then dropLeadingWs cs else c :: cs

/-- Model of Python `str.strip()`: remove leading and trailing whitespace. -/
def pyStrip (s : String) : String :=
  ⟨(dropLeadingWs ((dropLeadingWs s.data).reverse)).reverse⟩

/-- The response of the external world to one command invocation:
exit code, stdout text, stderr text. -/
structure ProcResult where
  code : Int
  out : String
  err : String
deriving Repr, DecidableEq

/-- An environment maps a command line to the external world's response. -/
def Env : Type := List String → ProcResult

/-- Model of `subprocess.CompletedProcess`: when output is not captured,
`stdout`/`stderr` are `none` (Python `None`). -/
structure CompletedProcess where
  returncode : Int
  stdout : Option String
  stderr : Option String
deriving Repr, DecidableEq

/-- Model of `subprocess.run(cmd, capture_output=..., text=True)`. -/
def subprocess_run (env : Env) (cmd : List String) (capture_output : Bool) :
    CompletedProcess :=
  let r := env cmd
  { returncode := r.code
    stdout := if capture_output then some r.out else none
    stderr := if capture_output then some r.err else none }

/-- `_is_already_exists_error`: check if a gcloud error indicates the
resource already exists. -/
def _is_already_exists_error (stderr : String) : Bool :=
  strContains stderr "ALREADY_EXISTS" || strContains stderr "already exists"

/-- `run_command`: run a command; on exit code 0 return the completed
process; on failure with `skip_if_exists` set and an already-exists error
text, return as a no-op success; otherwise raise `typer.Exit(code=1)`,
modelled as `Except.error 1`.  Output is captured when `capture` or
`skip_if_exists` is set. -/
def run_command (env : Env) (cmd : List String)
    (capture : Bool) ( skip_if_exists : Bool) : Except Nat CompletedProcess :=
  let result := subprocess_run env cmd (capture || skip_if_exists)
  if result.returncode = 0 then
    Except.ok result
  else if skip_if_exists && _is_already_exists_error (result.stderr.getD "") then
    Except.ok result
  else
    Except.error 1

/-- One recorded external interaction of a phase function. -/
inductive Ev where
      /-- A numbered step executed through `run_command`: its header reads
      "Step `step` of `total`", followed by the command. -/
  | run (step : Nat) (total : Nat) (cmd : List String)
      /-- A direct `subprocess.run` call with no step header. -/
  | proc (cmd : List String)
      /-- A `time.sleep(secs)` call. -/
  | sleep (secs : Nat)
      /-- A step header printed on the proactive-skip path (no command run). -/
  | header (step : Nat) (total : Nat)
deriving Repr, DecidableEq

/-- A trace computation: the list of external interactions performed, and
either a value or the process exit code raised by `typer.Exit`. -/
structure TraceM (α : Type) where
  trace : List Ev
  result : Except Nat α

/-- Sequencing of trace computations: a raised exit aborts, leaving the
trace collected so far; otherwise traces concatenate. -/
def TraceM.bind {α β : Type} (m : TraceM α) (f : α → TraceM β) : TraceM β :=
  match m.result with
  | Except.error e => ⟨m.trace, Except.error e⟩
  | Except.ok a => ⟨m.trace ++ (f a).trace, (f a).result⟩

instance : Monad TraceM where
  pure a := ⟨[], Except.ok a⟩
  bind := TraceM.bind

/-- Execute a step through `run_command`, recording it in the trace; a
fatal failure aborts the computation with the raised exit code. -/
def runCmdM (env : Env) (step total : Nat) (cmd : List String)
    (capture : Bool) ( skip_if_exists : Bool) : TraceM CompletedProcess :=
  ⟨[Ev.run step total cmd], run_command env cmd capture skip_if_exists⟩

/-- A direct `subprocess.run` call (existence checks, lookups): recorded
in the trace, never aborts by itself. -/
def procM (env : Env) (cmd : List String) (capture_output : Bool) :
    TraceM CompletedProcess :=
  ⟨[Ev.proc cmd], Except.ok (subprocess_run env cmd capture_output)⟩

/-- A `time.sleep` call recorded in the trace. -/
def sleepM (secs : Nat) : TraceM Unit :=
  ⟨[Ev.sleep secs], Except.ok ()⟩

/-- A bare step header printed when a creation step is proactively
skipped. -/
def headerM (step total : Nat) : TraceM Unit :=
  ⟨[Ev.header step total], Except.ok ()⟩

/-- The shared GCP project id (`SHARED_GCP_PROJECT`). -/
def SHARED_GCP_PROJECT : String := "goog-rle-assessments"

/-- The shared service-account name (`SHARED_SA_NAME`). -/
def SHARED_SA_NAME : String := "github-actions-rle"

/-- The per-project service-account name (`SA_NAME`). -/
def SA_NAME : String := "github-actions"

/-- The template repository (`TEMPLATE_REPO`). -/
def TEMPLATE_REPO : String := "RLE-Assessment/TEMPLATE-rle-assessment"

/-- The `GcpMode` enum: `own` or `shared`. -/
inductive GcpMode where
  | own
  | shared
deriving Repr, DecidableEq

/-- `check_prerequisites`: verify required CLIs are installed and
authenticated.  Tool installation is modelled by booleans (is the tool on
`PATH`), each auth probe by its process result.  Exits with code 1 on a
missing or unauthenticated tool. -/
def check_prerequisites (need_gh need_gcloud : Bool)
    (gh_installed : Bool) (gh_auth : ProcResult)
    (gcloud_installed : Bool) (gcloud_auth : ProcResult) : Except Nat Unit := do
  if need_gh then
    if gh_installed = false then
      throw 1
    if gh_auth.code ≠ 0 then
      throw 1
  if need_gcloud then
    if gcloud_installed = false then
      throw 1
    if gcloud_auth.code ≠ 0 ∨ pyStrip gcloud_auth.out = "" then
      throw 1
  pure ()

/-! ### Command lines issued by `init_repo.py`
Each definition is the literal argument list of one external call in the
source, parameterized exactly by the values interpolated there. -/

/-- `gh repo view` existence check (setup_github). -/
def ghViewCmd (repo_full : String) : List String :=
  ["gh", "repo", "view", repo_full, "--json", "name"]

/-- `gh repo create` from the template (setup_github). -/
def ghCreateCmd (gh_repo_name country_name : String) : List String :=
  ["gh", "repo", "create", gh_repo_name,
   "--template=" ++ TEMPLATE_REPO,
   "--description=An IUCN Red List of Ecosystems assessment for " ++ country_name,
   "--public",
   "--include-all-branches"]

/-- `gh api` PUT creating the github-pages environment (setup_github). -/
def ghPagesEnvCmd (gh_owner gh_repo_name : String) : List String :=
  ["gh", "api",
   "repos/" ++ gh_owner ++ "/" ++ gh_repo_name ++ "/environments/github-pages",
   "-X", "PUT", "--input", "-"]

/-- `gh api` POST adding main as deployment branch (setup_github). -/
def ghBranchPolicyCmd (gh_owner gh_repo_name : String) : List String :=
  ["gh", "api",
   "repos/" ++ gh_owner ++ "/" ++ gh_repo_name
     ++ "/environments/github-pages/deployment-branch-policies",
   "-X", "POST", "-f", "name=main", "-f", "type=branch"]

/-- `gcloud projects describe --format=value(projectId)` existence check. -/
def describeProjectIdCmd (gcp_project_id : String) : List String :=
  ["gcloud", "projects", "describe", gcp_project_id, "--format=value(projectId)"]

/-- `gcloud config set project` on the proactive-skip path. -/
def configSetProjectCmd (gcp_project_id : String) : List String :=
  ["gcloud", "config", "set", "project", gcp_project_id]

/-- `gcloud projects create`. -/
def projectsCreateCmd (gcp_project_id gcp_project_name : String) : List String :=
  ["gcloud", "projects", "create", gcp_project_id,
   "--name=" ++ gcp_project_name, "--set-as-default"]

/-- `gcloud auth list` for the active account. -/
def authListCmd : List String :=
  ["gcloud", "auth", "list", "--filter=status:ACTIVE", "--format=value(account)"]

/-- `gcloud projects add-iam-policy-binding` granting Owner to the user. -/
def ownerBindingCmd (gcp_project_id active_account : String) : List String :=
  ["gcloud", "projects", "add-iam-policy-binding", gcp_project_id,
   "--member=user:" ++ active_account, "--role=roles/owner"]

/-- `gcloud services enable` for one API. -/
def enableApiCmd (api gcp_project_id : String) : List String :=
  ["gcloud", "services", "enable", api, "--project=" ++ gcp_project_id]

/-- The four APIs enabled in `_setup_gcp_own`, in source order. -/
def apis : List String :=
  ["earthengine.googleapis.com",
   "iamcredentials.googleapis.com",
   "sts.googleapis.com",
   "cloudresourcemanager.googleapis.com"]

/-- `gcloud iam workload-identity-pools create github-pool`. -/
def poolCreateCmd (gcp_project_id : String) : List String :=
  ["gcloud", "iam", "workload-identity-pools", "create", "github-pool",
   "--project=" ++ gcp_project_id,
   "--location=global",
   "--display-name=GitHub Actions Pool"]

/-- `gcloud iam workload-identity-pools providers create-oidc github-provider`. -/
def providerCreateCmd (gcp_project_id : String) : List String :=
  ["gcloud", "iam", "workload-identity-pools", "providers", "create-oidc",
   "github-provider",
   "--project=" ++ gcp_project_id,
   "--location=global",
   "--workload-identity-pool=github-pool",
   "--display-name=GitHub Provider",
   "--attribute-mapping=google.subject=assertion.sub,attribute.actor=assertion.actor,attribute.repository=assertion.repository,attribute.repository_owner=assertion.repository_owner",
   "--attribute-condition=assertion.repository != ''",
   "--issuer-uri=https://token.actions.githubusercontent.com"]

/-- `gcloud iam service-accounts create`. -/
def saCreateCmd (gcp_project_id : String) : List String :=
  ["gcloud", "iam", "service-accounts", "create", SA_NAME,
   "--project=" ++ gcp_project_id,
   "--display-name=GitHub Actions"]

/-- `gcloud projects add-iam-policy-binding` granting a role to the
service account. -/
def grantRoleCmd (gcp_project_id sa_email role : String) : List String :=
  ["gcloud", "projects", "add-iam-policy-binding", gcp_project_id,
   "--member=serviceAccount:" ++ sa_email, "--role=" ++ role]

/-- `gcloud projects describe --format=value(projectNumber)`. -/
def describeProjectNumberCmd (gcp_project_id : String) : List String :=
  ["gcloud", "projects", "describe", gcp_project_id,
   "--format=value(projectNumber)"]

/-- The Workload Identity Federation principal for a repository. -/
def wifMember (project_number gh_owner gh_repo_name : String) : String :=
  "principalSet://iam.googleapis.com/projects/" ++ project_number
  ++ "/locations/global/workloadIdentityPools/github-pool/attribute.repository/"
  ++ gh_owner ++ "/" ++ gh_repo_name

/-- `gcloud iam service-accounts add-iam-policy-binding` binding the
repository principal to the service account. -/
def bindRepoCmd (sa_email project member : String) : List String :=
  ["gcloud", "iam", "service-accounts", "add-iam-policy-binding", sa_email,
   "--project=" ++ project,
   "--role=roles/iam.workloadIdentityUser",
   "--member=" ++ member]

/-- `gh secret set` writing one repository secret. -/
def ghSecretSetCmd (secret_name repo body : String) : List String :=
  ["gh", "secret", "set", secret_name, "--repo", repo, "--body", body]

/-! ### Phase functions of `init_repo.py` -/

/-- `setup_github`: create the GitHub repository (proactively skipped when
`gh repo view` succeeds) and configure the Pages deployment environment. -/
def setup_github (env : Env) (gh_owner gh_repo_name country_name : String)
    (step_offset total : Nat) : TraceM Unit := do
  let repo_full := gh_owner ++ "/" ++ gh_repo_name
  let check ← procM env (ghViewCmd repo_full) true
  if check.returncode = 0 then
    headerM (step_offset + 1) total
  else
    let _ ← runCmdM env (step_offset + 1) total
      (ghCreateCmd gh_repo_name country_name) false false
    pure ()
  let _ ← runCmdM env (step_offset + 2) total
    (ghPagesEnvCmd gh_owner gh_repo_name) false false
  let _ ← runCmdM env (step_offset + 3) total
    (ghBranchPolicyCmd gh_owner gh_repo_name) false false
  pure ()

/-- Enable each API of `l` in order at the given step number (the
`for i, (api, reason) in enumerate(apis)` loop of `_setup_gcp_own`). -/
def enable_apis (env : Env) (gcp_project_id : String) (step total : Nat) :
    List String → TraceM Unit
  | [] => pure ()
  | api :: rest => do
      let _ ← runCmdM env step total (enableApiCmd api gcp_project_id) false false
      enable_apis env gcp_project_id step total rest

/-- `_setup_gcp_own`: create a dedicated GCP project with full Workload
Identity Federation; returns the project number. -/
def _setup_gcp_own (env : Env)
    (gcp_project_id gcp_project_name gh_owner gh_repo_name : String)
    (step_offset total : Nat) : TraceM String := do
  let check ← procM env (describeProjectIdCmd gcp_project_id) true
  if check.returncode = 0 ∧ pyStrip (check.stdout.getD "") = gcp_project_id then
    headerM (step_offset + 1) total
    let _ ← procM env (configSetProjectCmd gcp_project_id) true
    pure ()
  else
    let _ ← runCmdM env (step_offset + 1) total
      (projectsCreateCmd gcp_project_id gcp_project_name) false false
    pure ()
  let acct ← procM env authListCmd true
  let active_account := pyStrip (acct.stdout.getD "")
  let _ ← runCmdM env (step_offset + 2) total
    (ownerBindingCmd gcp_project_id active_account) false false
  sleepM 30
  enable_apis env gcp_project_id (step_offset + 3) total apis
  let _ ← runCmdM env (step_offset + 4) total
    (poolCreateCmd gcp_project_id) false true
  let _ ← runCmdM env (step_offset + 5) total
    (providerCreateCmd gcp_project_id) false true
  let _ ← runCmdM env (step_offset + 6) total
    (saCreateCmd gcp_project_id) false true
  let sa_email := SA_NAME ++ "@" ++ gcp_project_id ++ ".iam.gserviceaccount.com"
  let _ ← runCmdM env (step_offset + 7) total
    (grantRoleCmd gcp_project_id sa_email "roles/earthengine.writer") false false
  let _ ← runCmdM env (step_offset + 7) total
    (grantRoleCmd gcp_project_id sa_email "roles/serviceusage.serviceUsageConsumer") false false
  let result ← runCmdM env (step_offset + 8) total
    (describeProjectNumberCmd gcp_project_id) true false
  let project_number := pyStrip (result.stdout.getD "")
  let member := wifMember project_number gh_owner gh_repo_name
  let _ ← runCmdM env (step_offset + 8) total
    (bindRepoCmd sa_email gcp_project_id member) false false
  pure project_number

/-- `_setup_gcp_shared`: look up the shared project number and bind the
repository to the shared service account; returns the project number. -/
def _setup_gcp_shared (env : Env) (gh_owner gh_repo_name : String)
    (step_offset total : Nat) : TraceM String := do
  let result ← runCmdM env (step_offset + 1) total
    (describeProjectNumberCmd SHARED_GCP_PROJECT) true false
  let project_number := pyStrip (result.stdout.getD "")
  let sa_email := SHARED_SA_NAME ++ "@" ++ SHARED_GCP_PROJECT ++ ".iam.gserviceaccount.com"
  let member := wifMember project_number gh_owner gh_repo_name
  let _ ← runCmdM env (step_offset + 2) total
    (bindRepoCmd sa_email SHARED_GCP_PROJECT member) false false
  pure project_number

/-- The `final_total` selection of `setup_gcp`: a caller-supplied total
wins; with no caller total, own mode uses 7 and shared mode uses 2. -/
def setup_gcp_final_total (gcp_mode : GcpMode) (total : Option Nat) : Nat :=
  if gcp_mode = GcpMode.own then
    match total with
    | some t => t
    | none => 7
  else
    match total with
    | some t => t
    | none => 2

/-- `setup_gcp`: dispatch on the mode; returns the project number. -/
def setup_gcp (env : Env)
    (gcp_project_id gcp_project_name gh_owner gh_repo_name : String)
    (gcp_mode : GcpMode) (step_offset : Nat) (total : Option Nat) : TraceM String :=
  if gcp_mode = GcpMode.own then
    _setup_gcp_own env gcp_project_id gcp_project_name gh_owner gh_repo_name
      step_offset (setup_gcp_final_total gcp_mode total)
  else
    _setup_gcp_shared env gh_owner gh_repo_name
      step_offset (setup_gcp_final_total gcp_mode total)

/-- `setup_secrets`: write the two Workload Identity Federation secrets.
The provider path is built identically in both branches of the source;
the service-account email differs by mode. -/
def setup_secrets (env : Env) (gh_owner gh_repo_name gcp_project_id : String)
    (gcp_mode : GcpMode) (project_number : String)
    (step_offset total : Nat) : TraceM Unit := do
  let strs :=
    if gcp_mode = GcpMode.own then
      ("projects/" ++ project_number
         ++ "/locations/global/workloadIdentityPools/github-pool/providers/github-provider",
       SA_NAME ++ "@" ++ gcp_project_id ++ ".iam.gserviceaccount.com")
    else
      ("projects/" ++ project_number
         ++ "/locations/global/workloadIdentityPools/github-pool/providers/github-provider",
       SHARED_SA_NAME ++ "@" ++ SHARED_GCP_PROJECT ++ ".iam.gserviceaccount.com")
  let wif_provider := strs.1
  let sa_email := strs.2
  let repo := gh_owner ++ "/" ++ gh_repo_name
  let _ ← runCmdM env (step_offset + 1) total
    (ghSecretSetCmd "GCP_WORKLOAD_IDENTITY_PROVIDER" repo wif_provider) false false
  let _ ← runCmdM env (step_offset + 2) total
    (ghSecretSetCmd "GCP_SERVICE_ACCOUNT" repo sa_email) false false
  pure ()

/-! ### Entry points (Typer commands) -/

/-- Lift the prerequisite check (whose probes are not phase steps) into a
trace computation. -/
def liftExit {α : Type} (e : Except Nat α) : TraceM α :=
  ⟨[], e⟩

/-- The provisioning-phase step count used by `cmd_all`:
`8 if gcp_mode == GcpMode.own else 2`. -/
def cmd_all_gcp_steps (gcp_mode : GcpMode) : Nat :=
  if gcp_mode = GcpMode.own then 8 else 2

/-- The overall step total displayed by `cmd_all`:
github (3) + gcp + secrets (2). -/
def cmd_all_total (gcp_mode : GcpMode) : Nat :=
  3 + cmd_all_gcp_steps gcp_mode + 2

/-- The `all` command: prerequisites, then GitHub setup, GCP setup and
secrets, threading the project number from phase 2 to phase 3. -/
def cmd_all (env : Env)
    (gh_installed : Bool) (gh_auth : ProcResult)
    (gcloud_installed : Bool) (gcloud_auth : ProcResult)
    (country_name gcp_project_id gcp_project_name gh_owner gh_repo_name : String)
    (gcp_mode : GcpMode) : TraceM Unit := do
  let github_steps := 3
  let gcp_steps := cmd_all_gcp_steps gcp_mode
  let total := cmd_all_total gcp_mode
  liftExit (check_prerequisites true true gh_installed gh_auth
    gcloud_installed gcloud_auth)
  setup_github env gh_owner gh_repo_name country_name 0 total
  let project_number ← setup_gcp env gcp_project_id gcp_project_name
    gh_owner gh_repo_name gcp_mode github_steps (some total)
  setup_secrets env gh_owner gh_repo_name gcp_project_id gcp_mode
    project_number (github_steps + gcp_steps) total

/-- The standalone `gcp` command: gcloud prerequisites only, then
`setup_gcp` with its default `step_offset=0` and `total=None`. -/
def cmd_gcp (env : Env)
    (gcloud_installed : Bool) (gcloud_auth : ProcResult)
    (gcp_project_id gcp_project_name gh_owner gh_repo_name : String)
    (gcp_mode : GcpMode) : TraceM String := do
  liftExit (check_prerequisites false true true ⟨0, "", ""⟩
    gcloud_installed gcloud_auth)
  setup_gcp env gcp_project_id gcp_project_name gh_owner gh_repo_name
    gcp_mode 0 none

/-! ### Step accounting over traces -/

/-- The step numbers displayed in a trace (one per printed step header,
in order, repeats included). -/
def stepNumbersUsed : List Ev → List Nat
  | [] => []
  | Ev.run s _ _ :: rest => s :: stepNumbersUsed rest
  | Ev.header s _ :: rest => s :: stepNumbersUsed rest
  | Ev.proc _ :: rest => stepNumbersUsed rest
  | Ev.sleep _ :: rest => stepNumbersUsed rest

/-- The step totals displayed in a trace (the `total` of each printed
"Step s of total" header, in order). -/
def stepTotalsUsed : List Ev → List Nat
  | [] => []
  | Ev.run _ t _ :: rest => t :: stepTotalsUsed rest
  | Ev.header _ t :: rest => t :: stepTotalsUsed rest
  | Ev.proc _ :: rest => stepTotalsUsed rest
  | Ev.sleep _ :: rest => stepTotalsUsed rest

/-- The number of distinct step numbers appearing in a trace. -/
def distinctStepCount (tr : List Ev) : Nat :=
  (stepNumbersUsed tr).dedup.length

/-! ### The generic sequencer (spec section 4.1)
The Python code sequences its steps as straight-line calls to
`run_command`, with `typer.Exit` propagation aborting everything after a
fatal failure.  `runSteps` is that sequencing pattern over an arbitrary
ordered list of steps: each step is run through `run_command` and a fatal
failure stops execution, so the executed steps form a prefix. -/

/-- One sequencer step: a command line with its `capture` and
`skip_if_exists` flags. -/
structure Step where
  cmd : List String
  capture : Bool
  skipIfExists : Bool
deriving Repr, DecidableEq

/-- The outcome of one step (spec data model): success, skipped because
the resource already exists, or failed. -/
inductive Outcome where
  | success
  | skipped
  | failed
deriving Repr, DecidableEq

/-- The outcome `run_command` assigns to a step under an environment. -/
def stepOutcome (env : Env) (s : Step) : Outcome :=
  let result := subprocess_run env s.cmd (s.capture || s.skipIfExists)
  if result.returncode = 0 then Outcome.success
  else if s.skipIfExists && _is_already_exists_error (result.stderr.getD "") then
    Outcome.skipped
  else Outcome.failed

/-- Execute steps in order through `run_command`; a fatal failure (a
raised `typer.Exit`) aborts immediately, so later steps never run.
Returns the list of steps that were actually executed. -/
def runSteps (env : Env) : List Step → List Step
  | [] => []
  | s :: rest =>
    match run_command env s.cmd s.capture s.skipIfExists with
    | Except.ok _ => s :: runSteps env rest
    | Except.error _ => [s]

/-! ### Model of `upload_demo_asset.py`
The Earth Engine SDK is an external collaborator; its observable calls
are recorded as a list of `EEAct` actions.  World behaviour (does the
asset exist, how many polls report the task active, the final task
state) is an `EEWorld` value. -/

/-- A feature: one polygon ring of (lon, lat) coordinates and its
property table, in source order. -/
structure Feature where
  geometry : List (Rat × Rat)
  props : List (String × String)
deriving Repr, DecidableEq

/-- The land feature (`T1.1` Null Island Tropical Forest). -/
def land : Feature :=
  { geometry := [(-0.005, -0.005), (0.0, -0.005), (0.0, 0.005), (-0.005, 0.005)]
    props := [("EFG1", "T1.1"),
              ("Glob_Typol", "T1.1_NullIsland_forest_D01"),
              ("ECO_NAME", "Null Island Tropical Forest"),
              ("COD", "D01")] }

/-- The water feature (`M1.1` Null Island Marine Shelf). -/
def water : Feature :=
  { geometry := [(0.0, -0.005), (0.005, -0.005), (0.005, 0.005), (0.0, 0.005)]
    props := [("EFG1", "M1.1"),
              ("Glob_Typol", "M1.1_NullIsland_marine_shelf_D02"),
              ("ECO_NAME", "Null Island Marine Shelf"),
              ("COD", "D02")] }

/-- Observable Earth Engine interactions of the upload script. -/
inductive EEAct where
      /-- `ee.data.getAsset(asset_id)` lookup. -/
  | getAsset (asset_id : String)
      /-- `ee.data.createAsset({"type": "FOLDER"}, folder_id)`. -/
  | createFolder (folder_id : String)
      /-- `ee.batch.Export.table.toAsset(...).start()`. -/
  | startExport (features : List Feature) (description asset_id : String)
      /-- `time.sleep(secs)` inside the polling loop. -/
  | sleep (secs : Nat)
      /-- `task.status()` after the loop. -/
  | taskStatus
deriving Repr, DecidableEq

/-- Behaviour of the Earth Engine world during one script run. -/
structure EEWorld where
      /-- Does the initial asset lookup succeed (asset already exists)? -/
  assetExists : Bool
      /-- How many times `task.active()` returns true before the task is
      terminal (the loop's fuel). -/
  activePolls : Nat
      /-- The terminal `status["state"]`. -/
  finalState : String
deriving Repr, DecidableEq

/-- The fixed remote asset path of the demo dataset. -/
def demo_asset_id (project : String) : String :=
  "projects/" ++ project ++ "/assets/demo/null_island_ecosystems"

/-- The folder created for the demo dataset. -/
def demo_folder_id (project : String) : String :=
  "projects/" ++ project ++ "/assets/demo"

/-- `upload_demo_asset`: skip everything if the asset exists; otherwise
create the folder, start the export of the two-feature collection, sleep
2 seconds per active poll, then read the task status. -/
def upload_demo_asset (project : String) (w : EEWorld) :
    List EEAct × Except Nat Unit :=
  let asset_id := demo_asset_id project
  if w.assetExists then
    ([EEAct.getAsset asset_id], Except.ok ())
  else
    ([EEAct.getAsset asset_id,
      EEAct.createFolder (demo_folder_id project),
      EEAct.startExport [land, water] "null_island_ecosystems" asset_id]
      ++ List.replicate w.activePolls (EEAct.sleep 2)
      ++ [EEAct.taskStatus],
     Except.ok ())

/-- The script's `__main__` block: `--project` falls back to the
`GOOGLE_CLOUD_PROJECT` environment variable; a missing or empty project
triggers `parser.error` (exit code 2) before any upload. -/
def script_main (cli_project env_project : Option String) (w : EEWorld) :
    List EEAct × Except Nat Unit :=
  let project :=
    match cli_project with
    | some p => some p
    | none => env_project
  match project with
  | none => ([], Except.error 2)
  | some p => if p = "" then ([], Except.error 2) else upload_demo_asset p w

/-! ### Concrete test environments used by witnesses and evaluations -/

/-- The environment of a fresh own-mode provisioning run: the project
does not yet exist, every other command succeeds. -/
def envFreshOwn : Env := fun cmd =>
  if cmd = describeProjectIdCmd "p1" then ⟨1, "", "not found"⟩
  else if cmd = describeProjectNumberCmd "p1" then ⟨0, "123456789", ""⟩
  else if cmd = authListCmd then ⟨0, "user@example.com", ""⟩
  else ⟨0, "", ""⟩

/-- The environment of a re-run against an already-provisioned target:
the repository and project exist, the pool, provider and service-account
creations fail with already-exists errors, everything else succeeds. -/
def envProvisioned : Env := fun cmd =>
  if cmd = describeProjectIdCmd "p1" then ⟨0, "p1", ""⟩
  else if cmd = describeProjectNumberCmd "p1" then ⟨0, "123456789", ""⟩
  else if cmd = poolCreateCmd "p1" then ⟨1, "", "ERROR: ALREADY_EXISTS"⟩
  else if cmd = providerCreateCmd "p1" then ⟨1, "", "ERROR: ALREADY_EXISTS"⟩
  else if cmd = saCreateCmd "p1" then
    ⟨1, "", "Service account github-actions already exists"⟩
  else ⟨0, "", ""⟩

/-- The environment in which every command fails fatally. -/
def envFail : Env := fun _ => ⟨1, "", "PERMISSION_DENIED"⟩

/-- A two-step sequence whose first step fails under `envFail`. -/
def twoSteps : List Step :=
  [⟨projectsCreateCmd "p1" "P1", false, false⟩,
   ⟨authListCmd, false, false⟩]

/-! ### Helper lemmas -/

@[simp] theorem TraceM.bind_ok {α β : Type} (t : List Ev) (a : α) (f : α → TraceM β) :
    TraceM.bind ⟨t, Except.ok a⟩ f = ⟨t ++ (f a).trace, (f a).result⟩ := rfl

@[simp] theorem TraceM.bind_error {α β : Type} (t : List Ev) (e : Nat) (f : α → TraceM β) :
    TraceM.bind ⟨t, Except.error e⟩ f = ⟨t, Except.error e⟩ := rfl

@[simp] theorem TraceM.monad_bind_eq {α β : Type} (m : TraceM α) (f : α → TraceM β) :
    (m >>= f) = TraceM.bind m f := rfl

@[simp] theorem TraceM.pure_eq {α : Type} (a : α) :
    (pure a : TraceM α) = ⟨[], Except.ok a⟩ := rfl

/-- Helper: binding a computation with a trace-free continuation keeps
its trace. -/
theorem TraceM.trace_bind_nil {α β : Type} (m : TraceM α) (f : α → TraceM β)
    (h : ∀ a, (f a).trace = []) :
    (TraceM.bind m f).trace = m.trace := by
  cases hm : m.result <;> simp [TraceM.bind, hm, h]

/-- Helper: a command whose exit code is zero runs successfully. -/
theorem run_command_ok (env : Env) (cmd : List String) (capture sk : Bool)
    (h : (env cmd).code = 0) :
    run_command env cmd capture sk
      = Except.ok (subprocess_run env cmd (capture || sk)) := by
  simp [run_command, subprocess_run, h]

/-- Helper: a failing skippable command with an already-exists error text
runs as a no-op success. -/
theorem run_command_skip_ok (env : Env) (cmd : List String) (capture : Bool)
    (h : (env cmd).code ≠ 0)
    (hm : _is_already_exists_error (env cmd).err = true) :
    run_command env cmd capture true = Except.ok (subprocess_run env cmd true) := by
  simp [run_command, subprocess_run, h, hm]

/-! ### Claim theorems -/

/-- C1: with `skip_if_exists=True`, a non-zero exit whose stderr contains
`ALREADY_EXISTS` or `already exists` returns normally (no-op success),
not the run-terminating exit. -/
theorem run_command_skip_already_exists (env : Env) (cmd : List String)
    (capture : Bool) (hfail : (env cmd).code ≠ 0)
    (hmarker : _is_already_exists_error (env cmd).err = true) :
    run_command env cmd capture true = Except.ok (subprocess_run env cmd true) := by
  simp [run_command, subprocess_run, hfail, hmarker]

/-- Witness for C1 at a concrete failing pool creation. -/
theorem run_command_skip_already_exists_witness :
    run_command (fun _ => ⟨1, "", "ERROR: ALREADY_EXISTS: pool github-pool"⟩)
        (poolCreateCmd "p1") false true
      = Except.ok (subprocess_run
          (fun _ => ⟨1, "", "ERROR: ALREADY_EXISTS: pool github-pool"⟩)
          (poolCreateCmd "p1") true) :=
  run_command_skip_already_exists
    (fun _ => ⟨1, "", "ERROR: ALREADY_EXISTS: pool github-pool"⟩)
    (poolCreateCmd "p1") false (by decide) (by decide)

/-- C2: with `skip_if_exists=False`, any non-zero exit raises the
run-terminating exit with process exit code 1, and a zero exit returns
normally. -/
theorem run_command_default_aborts (env : Env) (cmd : List String)
    (capture : Bool) :
    ((env cmd).code ≠ 0 → run_command env cmd capture false = Except.error 1) ∧
    ((env cmd).code = 0 →
      run_command env cmd capture false
        = Except.ok (subprocess_run env cmd capture)) := by
  constructor
  · intro h
    simp [run_command, subprocess_run, h]
  · intro h
    simp [run_command, subprocess_run, h]

/-- Witness for C2: a failing command aborts with exit code 1, a
succeeding one returns normally. -/
theorem run_command_default_aborts_witness :
    run_command (fun _ => ⟨1, "", "PERMISSION_DENIED"⟩) authListCmd false false
        = Except.error 1 ∧
    run_command (fun _ => ⟨0, "ok", ""⟩) authListCmd false false
        = Except.ok (subprocess_run (fun _ => ⟨0, "ok", ""⟩) authListCmd false) :=
  ⟨(run_command_default_aborts (fun _ => ⟨1, "", "PERMISSION_DENIED"⟩)
      authListCmd false).1 (by decide),
   (run_command_default_aborts (fun _ => ⟨0, "ok", ""⟩)
      authListCmd false).2 (by decide)⟩

/-- C10: when the initial asset lookup succeeds, `upload_demo_asset`
returns immediately after the lookup: no folder creation, no feature
collection, no export task. -/
theorem upload_demo_asset_skips_when_exists (project : String) (w : EEWorld)
    (h : w.assetExists = true) :
    upload_demo_asset project w
      = ([EEAct.getAsset (demo_asset_id project)], Except.ok ()) := by
  simp [upload_demo_asset, h]

/-- Witness for C10 at a concrete project and world. -/
theorem upload_demo_asset_skips_when_exists_witness :
    upload_demo_asset "my-proj" ⟨true, 0, "COMPLETED"⟩
      = ([EEAct.getAsset (demo_asset_id "my-proj")], Except.ok ()) :=
  upload_demo_asset_skips_when_exists "my-proj" ⟨true, 0, "COMPLETED"⟩ rfl

/-- C8: the upload script takes `--project` with an environment-variable
fallback, errors out before uploading when neither is set, and otherwise
uploads the two-feature (land, water) collection to the fixed asset path,
sleeping 2 seconds per poll of the export task until it is terminal. -/
theorem script_main_spec (env_project : Option String) (p : String)
    (w : EEWorld) (hp : p ≠ "") :
    script_main none none w = ([], Except.error 2) ∧
    script_main (some p) env_project w = upload_demo_asset p w ∧
    script_main none (some p) w = upload_demo_asset p w ∧
    (w.assetExists = false →
      upload_demo_asset p w
        = ([EEAct.getAsset (demo_asset_id p),
            EEAct.createFolder (demo_folder_id p),
            EEAct.startExport [land, water] "null_island_ecosystems"
              (demo_asset_id p)]
            ++ List.replicate w.activePolls (EEAct.sleep 2)
            ++ [EEAct.taskStatus],
           Except.ok ())) := by
  refine ⟨rfl, ?_, ?_, ?_⟩
  · simp [script_main, hp]
  · simp [script_main, hp]
  · intro h
    simp [upload_demo_asset, h]

/-- Witness for C8 at a concrete project and world. -/
theorem script_main_spec_witness :
    script_main none none ⟨false, 3, "COMPLETED"⟩ = ([], Except.error 2) ∧
    upload_demo_asset "my-proj" ⟨false, 3, "COMPLETED"⟩
      = ([EEAct.getAsset (demo_asset_id "my-proj"),
          EEAct.createFolder (demo_folder_id "my-proj"),
          EEAct.startExport [land, water] "null_island_ecosystems"
            (demo_asset_id "my-proj")]
          ++ List.replicate 3 (EEAct.sleep 2)
          ++ [EEAct.taskStatus],
         Except.ok ()) :=
  ⟨(script_main_spec none "my-proj" ⟨false, 3, "COMPLETED"⟩ (by decide)).1,
   (script_main_spec none "my-proj" ⟨false, 3, "COMPLETED"⟩ (by decide)).2.2.2 rfl⟩

/-- C9: with `need_gcloud=True` and gcloud installed, the user is treated
as unauthenticated (exit code 1) both when `gcloud auth list` exits
non-zero and when it exits zero with whitespace-only stdout. -/
theorem check_prerequisites_gcloud_auth (need_gh gh_installed : Bool)
    (gh_auth gcloud_auth : ProcResult)
    (hgh : need_gh = true → gh_installed = true ∧ gh_auth.code = 0)
    (hauth : gcloud_auth.code ≠ 0 ∨ pyStrip gcloud_auth.out = "") :
    check_prerequisites need_gh true gh_installed gh_auth true gcloud_auth
      = Except.error 1 := by
  cases need_gh with
  | false =>
    simp [check_prerequisites, hauth]
    rfl
  | true =>
    obtain ⟨hi, hc⟩ := hgh rfl
    subst hi
    simp [check_prerequisites, hc, hauth]
    rfl

/-- Witness for C9: zero exit with whitespace-only stdout is rejected. -/
theorem check_prerequisites_gcloud_auth_witness :
    check_prerequisites false true true ⟨0, "", ""⟩ true ⟨0, "  \n", ""⟩
      = Except.error 1 :=
  check_prerequisites_gcloud_auth false true ⟨0, "", ""⟩ ⟨0, "  \n", ""⟩
    (by simp) (Or.inr (by decide))

/-- C4: in shared mode the published service-identity secret is the fixed
shared account, and in both modes the federation-provider secret is the
fixed-shape string built from the project number; the only conditional is
the mode selection of the service-identity email. -/
theorem setup_secrets_bodies (env : Env)
    (gh_owner gh_repo_name gcp_project_id project_number : String)
    (gcp_mode : GcpMode) (so t : Nat)
    (hwif : (env (ghSecretSetCmd "GCP_WORKLOAD_IDENTITY_PROVIDER"
        (gh_owner ++ "/" ++ gh_repo_name)
        ("projects/" ++ project_number
          ++ "/locations/global/workloadIdentityPools/github-pool/providers/github-provider"))).code
      = 0) :
    (setup_secrets env gh_owner gh_repo_name gcp_project_id gcp_mode
        project_number so t).trace
      = [Ev.run (so + 1) t
           (ghSecretSetCmd "GCP_WORKLOAD_IDENTITY_PROVIDER"
             (gh_owner ++ "/" ++ gh_repo_name)
             ("projects/" ++ project_number
               ++ "/locations/global/workloadIdentityPools/github-pool/providers/github-provider")),
         Ev.run (so + 2) t
           (ghSecretSetCmd "GCP_SERVICE_ACCOUNT"
             (gh_owner ++ "/" ++ gh_repo_name)
             (if gcp_mode = GcpMode.own then
               SA_NAME ++ "@" ++ gcp_project_id ++ ".iam.gserviceaccount.com"
             else
               "github-actions-rle@goog-rle-assessments.iam.gserviceaccount.com"))] := by
  cases gcp_mode <;>
    simp [setup_secrets, runCmdM, TraceM.monad_bind_eq, TraceM.trace_bind_nil,
      run_command_ok env _ false false hwif, SA_NAME, SHARED_SA_NAME,
      SHARED_GCP_PROJECT]

/-- Witness for C4 in shared mode at concrete inputs. -/
theorem setup_secrets_bodies_witness :
    (setup_secrets (fun _ => ⟨0, "", ""⟩) "owner" "repo" "p1" GcpMode.shared
        "123" 0 2).trace
      = [Ev.run 1 2
           (ghSecretSetCmd "GCP_WORKLOAD_IDENTITY_PROVIDER" ("owner" ++ "/" ++ "repo")
             ("projects/" ++ "123"
               ++ "/locations/global/workloadIdentityPools/github-pool/providers/github-provider")),
         Ev.run 2 2
           (ghSecretSetCmd "GCP_SERVICE_ACCOUNT" ("owner" ++ "/" ++ "repo")
             (if GcpMode.shared = GcpMode.own then
               SA_NAME ++ "@" ++ "p1" ++ ".iam.gserviceaccount.com"
             else
               "github-actions-rle@goog-rle-assessments.iam.gserviceaccount.com"))] :=
  setup_secrets_bodies (fun _ => ⟨0, "", ""⟩) "owner" "repo" "p1" "123"
    GcpMode.shared 0 2 rfl

/-- C3 (code evaluation): under the standalone `gcp` entry point in own
mode, the run performs 8 distinct steps but every displayed header uses
the step total 7 chosen by `setup_gcp`, while the `all` entry point
counts 8 provisioning steps for own mode (and 2 for shared). -/
theorem setup_gcp_step_total_mismatch :
    setup_gcp_final_total GcpMode.own none = 7 ∧
    setup_gcp_final_total GcpMode.shared none = 2 ∧
    cmd_all_gcp_steps GcpMode.own = 8 ∧
    cmd_all_gcp_steps GcpMode.shared = 2 ∧
    distinctStepCount
      (cmd_gcp envFreshOwn true ⟨0, "user@example.com", ""⟩
        "p1" "P1" "owner" "repo" GcpMode.own).trace = 8 ∧
    stepTotalsUsed
      (cmd_gcp envFreshOwn true ⟨0, "user@example.com", ""⟩
        "p1" "P1" "owner" "repo" GcpMode.own).trace
      = List.replicate 13 7 := by
  refine ⟨rfl, rfl, rfl, rfl, ?_, ?_⟩ <;> decide

/-- C5: in own mode with a project id that is not pre-existing and every
command succeeding, `_setup_gcp_own` performs, in order: the existence
check, create project, the active-account lookup, grant owner, the
30-second sleep, enable the 4 APIs, create pool, create provider, create
service account, grant 2 roles, describe the project number, and bind the
repository — returning the stripped numeric project string, unmodified
when it carries no surrounding whitespace. -/
theorem setup_gcp_own_fresh_trace (env : Env)
    (gcp_project_id gcp_project_name gh_owner gh_repo_name n en : String)
    (so t : Nat)
    (h0 : (env (describeProjectIdCmd gcp_project_id)).code ≠ 0)
    (h1 : (env (projectsCreateCmd gcp_project_id gcp_project_name)).code = 0)
    (h2 : (env (ownerBindingCmd gcp_project_id
        (pyStrip (env authListCmd).out))).code = 0)
    (h3 : (env (enableApiCmd "earthengine.googleapis.com" gcp_project_id)).code = 0)
    (h4 : (env (enableApiCmd "iamcredentials.googleapis.com" gcp_project_id)).code = 0)
    (h5 : (env (enableApiCmd "sts.googleapis.com" gcp_project_id)).code = 0)
    (h6 : (env (enableApiCmd "cloudresourcemanager.googleapis.com" gcp_project_id)).code = 0)
    (h7 : (env (poolCreateCmd gcp_project_id)).code = 0)
    (h8 : (env (providerCreateCmd gcp_project_id)).code = 0)
    (h9 : (env (saCreateCmd gcp_project_id)).code = 0)
    (h10 : (env (grantRoleCmd gcp_project_id
        (SA_NAME ++ "@" ++ gcp_project_id ++ ".iam.gserviceaccount.com")
        "roles/earthengine.writer")).code = 0)
    (h11 : (env (grantRoleCmd gcp_project_id
        (SA_NAME ++ "@" ++ gcp_project_id ++ ".iam.gserviceaccount.com")
        "roles/serviceusage.serviceUsageConsumer")).code = 0)
    (h12 : env (describeProjectNumberCmd gcp_project_id) = ⟨0, n, en⟩)
    (hstrip : pyStrip n = n)
    (h13 : (env (bindRepoCmd
        (SA_NAME ++ "@" ++ gcp_project_id ++ ".iam.gserviceaccount.com")
        gcp_project_id (wifMember n gh_owner gh_repo_name))).code = 0) :
    _setup_gcp_own env gcp_project_id gcp_project_name gh_owner gh_repo_name so t
      = ⟨[Ev.proc (describeProjectIdCmd gcp_project_id),
          Ev.run (so + 1) t (projectsCreateCmd gcp_project_id gcp_project_name),
          Ev.proc authListCmd,
          Ev.run (so + 2) t (ownerBindingCmd gcp_project_id
            (pyStrip (env authListCmd).out)),
          Ev.sleep 30,
          Ev.run (so + 3) t (enableApiCmd "earthengine.googleapis.com" gcp_project_id),
          Ev.run (so + 3) t (enableApiCmd "iamcredentials.googleapis.com" gcp_project_id),
          Ev.run (so + 3) t (enableApiCmd "sts.googleapis.com" gcp_project_id),
          Ev.run (so + 3) t (enableApiCmd "cloudresourcemanager.googleapis.com" gcp_project_id),
          Ev.run (so + 4) t (poolCreateCmd gcp_project_id),
          Ev.run (so + 5) t (providerCreateCmd gcp_project_id),
          Ev.run (so + 6) t (saCreateCmd gcp_project_id),
          Ev.run (so + 7) t (grantRoleCmd gcp_project_id
            (SA_NAME ++ "@" ++ gcp_project_id ++ ".iam.gserviceaccount.com")
            "roles/earthengine.writer"),
          Ev.run (so + 7) t (grantRoleCmd gcp_project_id
            (SA_NAME ++ "@" ++ gcp_project_id ++ ".iam.gserviceaccount.com")
            "roles/serviceusage.serviceUsageConsumer"),
          Ev.run (so + 8) t (describeProjectNumberCmd gcp_project_id),
          Ev.run (so + 8) t (bindRepoCmd
            (SA_NAME ++ "@" ++ gcp_project_id ++ ".iam.gserviceaccount.com")
            gcp_project_id (wifMember n gh_owner gh_repo_name))],
         Except.ok n⟩ := by
  simp [_setup_gcp_own, enable_apis, apis, procM, runCmdM, sleepM, headerM,
    subprocess_run, TraceM.monad_bind_eq, run_command_ok,
    h0, h1, h2, h3, h4, h5, h6, h7, h8, h9, h10, h11, h12, h13, hstrip,
    run_command, TraceM.bind]

/-- Witness for C5: the fresh own-mode environment yields the project
number reported by the describe call. -/
theorem setup_gcp_own_fresh_trace_witness :
    (_setup_gcp_own envFreshOwn "p1" "P1" "owner" "repo" 0 7).result
      = Except.ok "123456789" := by
  rw [setup_gcp_own_fresh_trace envFreshOwn "p1" "P1" "owner" "repo"
    "123456789" "" 0 7 (by decide) (by decide) (by decide) (by decide)
    (by decide) (by decide) (by decide) (by decide) (by decide) (by decide)
    (by decide) (by decide) (by decide) (by decide) (by decide)]

/-- C6: re-running against an already-provisioned target creates nothing:
the repository and project existence checks skip creation proactively
(no `gh repo create`, no `gcloud projects create` is issued), the pool,
provider and service-account creations are attempted with
`skip_if_exists` and their already-exists failures are treated as
success, and both phases complete, returning the same project number. -/
theorem rerun_no_duplicate_creation (env : Env)
    (gh_owner gh_repo_name country_name
      gcp_project_id gcp_project_name o eo n en : String) (so t so2 t2 : Nat)
    (g0 : (env (ghViewCmd (gh_owner ++ "/" ++ gh_repo_name))).code = 0)
    (g1 : (env (ghPagesEnvCmd gh_owner gh_repo_name)).code = 0)
    (g2 : (env (ghBranchPolicyCmd gh_owner gh_repo_name)).code = 0)
    (p0 : env (describeProjectIdCmd gcp_project_id) = ⟨0, o, eo⟩)
    (hpo : pyStrip o = gcp_project_id)
    (h2 : (env (ownerBindingCmd gcp_project_id
        (pyStrip (env authListCmd).out))).code = 0)
    (h3 : (env (enableApiCmd "earthengine.googleapis.com" gcp_project_id)).code = 0)
    (h4 : (env (enableApiCmd "iamcredentials.googleapis.com" gcp_project_id)).code = 0)
    (h5 : (env (enableApiCmd "sts.googleapis.com" gcp_project_id)).code = 0)
    (h6 : (env (enableApiCmd "cloudresourcemanager.googleapis.com" gcp_project_id)).code = 0)
    (hp1 : (env (poolCreateCmd gcp_project_id)).code ≠ 0)
    (hp2 : _is_already_exists_error (env (poolCreateCmd gcp_project_id)).err = true)
    (hq1 : (env (providerCreateCmd gcp_project_id)).code ≠ 0)
    (hq2 : _is_already_exists_error (env (providerCreateCmd gcp_project_id)).err = true)
    (hs1 : (env (saCreateCmd gcp_project_id)).code ≠ 0)
    (hs2 : _is_already_exists_error (env (saCreateCmd gcp_project_id)).err = true)
    (h10 : (env (grantRoleCmd gcp_project_id
        (SA_NAME ++ "@" ++ gcp_project_id ++ ".iam.gserviceaccount.com")
        "roles/earthengine.writer")).code = 0)
    (h11 : (env (grantRoleCmd gcp_project_id
        (SA_NAME ++ "@" ++ gcp_project_id ++ ".iam.gserviceaccount.com")
        "roles/serviceusage.serviceUsageConsumer")).code = 0)
    (h12 : env (describeProjectNumberCmd gcp_project_id) = ⟨0, n, en⟩)
    (hstrip : pyStrip n = n)
    (h13 : (env (bindRepoCmd
        (SA_NAME ++ "@" ++ gcp_project_id ++ ".iam.gserviceaccount.com")
        gcp_project_id (wifMember n gh_owner gh_repo_name))).code = 0) :
    setup_github env gh_owner gh_repo_name country_name so t
      = ⟨[Ev.proc (ghViewCmd (gh_owner ++ "/" ++ gh_repo_name)),
          Ev.header (so + 1) t,
          Ev.run (so + 2) t (ghPagesEnvCmd gh_owner gh_repo_name),
          Ev.run (so + 3) t (ghBranchPolicyCmd gh_owner gh_repo_name)],
         Except.ok ()⟩ ∧
    _setup_gcp_own env gcp_project_id gcp_project_name gh_owner gh_repo_name so2 t2
      = ⟨[Ev.proc (describeProjectIdCmd gcp_project_id),
          Ev.header (so2 + 1) t2,
          Ev.proc (configSetProjectCmd gcp_project_id),
          Ev.proc authListCmd,
          Ev.run (so2 + 2) t2 (ownerBindingCmd gcp_project_id
            (pyStrip (env authListCmd).out)),
          Ev.sleep 30,
          Ev.run (so2 + 3) t2 (enableApiCmd "earthengine.googleapis.com" gcp_project_id),
          Ev.run (so2 + 3) t2 (enableApiCmd "iamcredentials.googleapis.com" gcp_project_id),
          Ev.run (so2 + 3) t2 (enableApiCmd "sts.googleapis.com" gcp_project_id),
          Ev.run (so2 + 3) t2 (enableApiCmd "cloudresourcemanager.googleapis.com" gcp_project_id),
          Ev.run (so2 + 4) t2 (poolCreateCmd gcp_project_id),
          Ev.run (so2 + 5) t2 (providerCreateCmd gcp_project_id),
          Ev.run (so2 + 6) t2 (saCreateCmd gcp_project_id),
          Ev.run (so2 + 7) t2 (grantRoleCmd gcp_project_id
            (SA_NAME ++ "@" ++ gcp_project_id ++ ".iam.gserviceaccount.com")
            "roles/earthengine.writer"),
          Ev.run (so2 + 7) t2 (grantRoleCmd gcp_project_id
            (SA_NAME ++ "@" ++ gcp_project_id ++ ".iam.gserviceaccount.com")
            "roles/serviceusage.serviceUsageConsumer"),
          Ev.run (so2 + 8) t2 (describeProjectNumberCmd gcp_project_id),
          Ev.run (so2 + 8) t2 (bindRepoCmd
            (SA_NAME ++ "@" ++ gcp_project_id ++ ".iam.gserviceaccount.com")
            gcp_project_id (wifMember n gh_owner gh_repo_name))],
         Except.ok n⟩ := by
  constructor
  · simp [setup_github, procM, runCmdM, headerM, subprocess_run,
      TraceM.monad_bind_eq, run_command_ok, g0, g1, g2, TraceM.bind]
  · simp [_setup_gcp_own, enable_apis, apis, procM, runCmdM, sleepM, headerM,
      subprocess_run, TraceM.monad_bind_eq, run_command_ok, run_command_skip_ok,
      p0, hpo, h2, h3, h4, h5, h6, hp1, hp2, hq1, hq2, hs1, hs2,
      h10, h11, h12, h13, hstrip, TraceM.bind]

set_option maxRecDepth 4000 in
/-- Witness for C6: the re-run completes both phases and returns the same
project number. -/
theorem rerun_no_duplicate_creation_witness :
    (setup_github envProvisioned "owner" "repo" "Ruritania" 0 13).result
      = Except.ok () ∧
    (_setup_gcp_own envProvisioned "p1" "P1" "owner" "repo" 3 13).result
      = Except.ok "123456789" := by
  obtain ⟨A, B⟩ := rerun_no_duplicate_creation envProvisioned
    "owner" "repo" "Ruritania" "p1" "P1" "p1" "" "123456789" "" 0 13 3 13
    (by decide) (by decide) (by decide) (by decide) (by decide) (by decide)
    (by decide) (by decide) (by decide) (by decide) (by decide) (by decide)
    (by decide) (by decide) (by decide) (by decide) (by decide) (by decide)
    (by decide) (by decide) (by decide)
  exact ⟨by rw [A], by rw [B]⟩

/-- Helper: a step fails exactly when `run_command` raises the exit. -/
theorem stepOutcome_failed_iff (env : Env) (s : Step) :
    stepOutcome env s = Outcome.failed ↔
      run_command env s.cmd s.capture s.skipIfExists = Except.error 1 := by
  unfold stepOutcome run_command
  dsimp only
  split_ifs <;> simp

/-- Helper: execution stops no later than right after a failed step. -/
theorem runSteps_length_le (env : Env) (steps : List Step) :
    ∀ (j : Nat) (hj : j < steps.length),
      stepOutcome env (steps.get ⟨j, hj⟩) = Outcome.failed →
      (runSteps env steps).length ≤ j + 1 := by
  induction steps with
  | nil => intro j hj _; simp at hj
  | cons s rest ih =>
    intro j hj hfail
    cases j with
    | zero =>
      cases hr : run_command env s.cmd s.capture s.skipIfExists with
      | error e => simp [runSteps, hr]
      | ok r =>
        exfalso
        have h2 := (stepOutcome_failed_iff env s).mp (by simpa using hfail)
        rw [hr] at h2
        exact Except.noConfusion h2
    | succ j =>
      cases hr : run_command env s.cmd s.capture s.skipIfExists with
      | error e => simp [runSteps, hr]
      | ok r =>
        have h2 := ih j (by simpa using hj) (by simpa using hfail)
        simp only [runSteps, hr, List.length_cons]
        omega

/-- Helper: the executed steps form a prefix of the step list. -/
theorem runSteps_take (env : Env) (steps : List Step) :
    runSteps env steps = steps.take ((runSteps env steps).length) := by
  induction steps with
  | nil => simp [runSteps]
  | cons s rest ih =>
    cases hr : run_command env s.cmd s.capture s.skipIfExists with
    | error e => simp [runSteps, hr]
    | ok r =>
      simp only [runSteps, hr, List.length_cons, List.take_succ_cons,
        List.cons.injEq, true_and]
      exact ih

/-- Helper: every executed step other than the last did not fail. -/
theorem runSteps_prefix_ok (env : Env) (steps : List Step) :
    ∀ (i : Nat) (x : Step), i + 1 < (runSteps env steps).length →
      (runSteps env steps).get? i = some x →
      stepOutcome env x ≠ Outcome.failed := by
  induction steps with
  | nil => intro i x hi _; simp [runSteps] at hi
  | cons s rest ih =>
    intro i x hi hx
    cases hr : run_command env s.cmd s.capture s.skipIfExists with
    | error e =>
      rw [runSteps, hr] at hi
      simp at hi
    | ok r =>
      rw [runSteps, hr] at hi hx
      cases i with
      | zero =>
        simp at hx
        subst hx
        intro hfail
        have h2 := (stepOutcome_failed_iff env s).mp hfail
        rw [hr] at h2
        exact Except.noConfusion h2
      | succ i =>
        exact ih i x (by simpa using hi) (by simpa using hx)

/-- C7: if some step before position `k` failed, the run aborts before
reaching step `k`: the executed steps are a prefix of length at most `k`,
and every executed step other than the aborting one succeeded or was
skipped, so each executed step observes only completed prior steps. -/
theorem sequencer_abort_invariant (env : Env) (steps : List Step) (k j : Nat)
    (hjk : j < k) (hj : j < steps.length)
    (hfail : stepOutcome env (steps.get ⟨j, hj⟩) = Outcome.failed) :
    (runSteps env steps).length ≤ k ∧
    runSteps env steps = steps.take ((runSteps env steps).length) ∧
    (∀ (i : Nat) (x : Step), i + 1 < (runSteps env steps).length →
      (runSteps env steps).get? i = some x →
      stepOutcome env x ≠ Outcome.failed) := by
  refine ⟨?_, runSteps_take env steps, runSteps_prefix_ok env steps⟩
  have h2 := runSteps_length_le env steps j hj hfail
  omega

/-- Witness for C7: with the first of two steps failing, only that step
executes. -/
theorem sequencer_abort_invariant_witness :
    (runSteps envFail twoSteps).length ≤ 1 ∧
    runSteps envFail twoSteps
      = twoSteps.take ((runSteps envFail twoSteps).length) ∧
    (∀ (i : Nat) (x : Step), i + 1 < (runSteps envFail twoSteps).length →
      (runSteps envFail twoSteps).get? i = some x →
      stepOutcome envFail x ≠ Outcome.failed) :=
  sequencer_abort_invariant envFail twoSteps 1 0 (by decide) (by decide)
    (by decide)
